import Mathlib

/-!
# A verification model of the Nasus-Bot contract-tracking subsystem

Shallow embedding of the tracking/alert core of `src/bot.py`:
the address classifier (`is_valid_base58`, `is_ethereum_address`,
`is_contract_address`), the numeric formatters (`format_number`,
`format_price_change`), the tracking store (`tracked_contracts`, a
defaultdict whose default entry has every field `None`), the toggle
handler (`toggle_tracking`) and the poll loop (`check_tracked_contracts`).

Modelling conventions:
* Python `float` market-cap and percentage values are modelled as exact
  rationals (`ℚ`); every value exercised by the claims is exactly
  representable in binary floating point, so the comparisons of the
  source behave identically on the model.
* A provider fetch (`get_dexscreener_token_info` followed by the
  `info_data and 'pairs' in info_data and info_data['pairs']` test) is
  modelled as `Option (Option ℚ)`: the outer `none` is a failed fetch or
  an empty pair list (in `fetch_data` every network / non-2xx error is
  caught and turned into `None`), the inner value is the `fdv` field of
  `pairs[0]`, which may itself be absent (`.get('fdv', 0)`).
* Chat-platform side effects are modelled as an explicit ordered list of
  actions (`TAction`); only store assignments change the model state.
  Platform calls themselves are assumed not to raise, and the message id
  of a freshly sent card is supplied by an oracle.
* Python exceptions inside the poll loop (`ZeroDivisionError` from
  `abs(current - last) / last` when `last == 0.0`, `TypeError` when
  `last is None`) are modelled by `Except`: an error aborts the
  remainder of the `for` loop, exactly as an uncaught exception does.
-/

namespace NasusBot

/-- Market caps and percentages: Python `float`, modelled as `ℚ`. -/
abbrev Cap := ℚ

/-- One value of the `tracked_contracts` defaultdict (src/bot.py line 28):
`{"initial_market_cap": None, "last_alerted_cap": None, "pin_message_id": None, "chat_id": None}`. -/
structure Entry where
  initial_market_cap : Option Cap
  last_alerted_cap : Option Cap
  pin_message_id : Option Nat
  chat_id : Option Nat
deriving DecidableEq, Repr

/-- The defaultdict default: all fields `None` (an untracked entry). -/
def defaultEntry : Entry := ⟨none, none, none, none⟩

/-- The `tracked_contracts` table, as an insertion-ordered association
list (CPython dicts iterate in insertion order). -/
abbrev Store := List (String × Entry)

/-- Dictionary read with the defaultdict default. -/
def Store.get : Store → String → Entry
  | [], _ => defaultEntry
  | (k, e) :: rest, a => if k = a then e else Store.get rest a

/-- Dictionary write: replace in place, or append a new key at the end. -/
def Store.set : Store → String → Entry → Store
  | [], a, e => [(a, e)]
  | (k, e0) :: rest, a, e =>
      if k = a then (k, e) :: rest else (k, e0) :: Store.set rest a e

/-! ## Address classifier (src/bot.py lines 30-43) -/

/-- The Bitcoin base-58 alphabet used by the `base58` library. -/
def BASE58_ALPHABET : List Char :=
  ("123456789ABCDEFGHJKLMNPQRSTUVWXYZabcdefghijkmnopqrstuvwxyz").data

/-- Index of a character in the alphabet, `none` if absent. -/
def b58index (c : Char) : List Char → Option Nat
  | [] => none
  | a :: rest => if a = c then some 0 else (b58index c rest).map (· + 1)

/-- The code points for which Python `str.isspace()` is true (Unicode
category Zs/Zl/Zp or bidirectional class WS, B or S); these are the
characters `str.rstrip()` removes. -/
def PY_WHITESPACE : List Nat :=
  [0x09, 0x0a, 0x0b, 0x0c, 0x0d, 0x1c, 0x1d, 0x1e, 0x1f, 0x20, 0x85, 0xa0,
   0x1680, 0x2000, 0x2001, 0x2002, 0x2003, 0x2004, 0x2005, 0x2006, 0x2007,
   0x2008, 0x2009, 0x200a, 0x2028, 0x2029, 0x202f, 0x205f, 0x3000]

/-- Python `c.isspace()`. -/
def pyIsSpace (c : Char) : Bool :=
  PY_WHITESPACE.contains c.toNat

/-- Python `str.rstrip()` on the character list: remove trailing
whitespace. -/
def pyRstrip (l : List Char) : List Char :=
  (l.reverse.dropWhile (fun c => pyIsSpace c)).reverse

/-- The digit loop of `base58.b58decode` after its input scrub: succeeds
iff every remaining character is in the alphabet (any other character —
including non-ASCII, whose `UnicodeEncodeError` is a subclass of
`ValueError` — raises `ValueError`, which `is_valid_base58` catches). -/
def b58decodeCore (acc : Nat) : List Char → Option Nat
  | [] => some acc
  | c :: cs =>
      match b58index c BASE58_ALPHABET with
      | none => none
      | some i => b58decodeCore (acc * 58 + i) cs

/-- `base58.b58decode(address)` as used by the source: the library first
does `v = v.rstrip()` (trailing whitespace is discarded before the
alphabet check, for the default Bitcoin alphabet), then only success vs
`ValueError` matters. -/
def b58decode (s : String) : Option Nat :=
  b58decodeCore 0 (pyRstrip s.data)

/-- `is_valid_base58` (src/bot.py lines 30-37):
`len(address) in range(32, 45)` and `b58decode` does not raise. -/
def is_valid_base58 (address : String) : Bool :=
  if 32 ≤ address.length ∧ address.length < 45 then (b58decode address).isSome
  else false

/-- Python `address.startswith(p)`: `p` is a prefix of the characters. -/
def startswith (address : String) (p : String) : Bool :=
  p.data.isPrefixOf address.data

/-- `is_ethereum_address` (src/bot.py lines 39-40). -/
def is_ethereum_address (address : String) : Bool :=
  address.length = 42 && startswith address ("0x")

/-- `is_contract_address` (src/bot.py lines 42-43). -/
def is_contract_address (address : String) : Bool :=
  is_valid_base58 address || is_ethereum_address address

/-! ## Numeric formatters (src/bot.py lines 63-80) -/

/-- Round half to even to an integer (the tie-breaking used by Python
`format(x, '.2f')`; no value exercised here is a tie). -/
def roundHalfEven (q : ℚ) : ℤ :=
  if q - ⌊q⌋ < 1/2 then ⌊q⌋
  else if 1/2 < q - ⌊q⌋ then ⌊q⌋ + 1
  else if ⌊q⌋ % 2 = 0 then ⌊q⌋ else ⌊q⌋ + 1

/-- `f"{q:.2f}"` for a nonnegative rational. -/
def fmt2Nonneg (q : ℚ) : String :=
  let n := (roundHalfEven (q * 100)).toNat
  toString (n / 100) ++ "." ++ (if n % 100 < 10 then "0" else "") ++ toString (n % 100)

/-- `f"{q:.2f}"`. -/
def fmt2 (q : ℚ) : String :=
  if q < 0 then "-" ++ fmt2Nonneg (-q) else fmt2Nonneg q

/-- Python `int(q)`: truncation toward zero. -/
def pyInt (q : ℚ) : ℤ :=
  if 0 ≤ q then ⌊q⌋ else -⌊-q⌋

/-- `format_price_change` (src/bot.py lines 63-64). -/
def format_price_change (change : Cap) : String :=
  if 0 < change then "🟢" ++ fmt2 change ++ "%"
  else if change < 0 then "🔴" ++ fmt2 change ++ "%"
  else fmt2 change ++ "%"

/-- `format_number` (src/bot.py lines 66-80), restricted to numeric
input (`float(number)` succeeding; the `ValueError`/`TypeError` branch
that yields `'N/A'` is out of scope for the claims). -/
def format_number (number : Cap) (is_buy_sell : Bool := false) : String :=
  if is_buy_sell = true ∧ number < 1000 then toString (pyInt number)
  else if 1000000000 ≤ number then fmt2 (number / 1000000000) ++ "B"
  else if 1000000 ≤ number then fmt2 (number / 1000000) ++ "M"
  else if 1000 ≤ number then fmt2 (number / 1000) ++ "K"
  else fmt2 number

/-! ## The toggle handler (src/bot.py lines 248-303)

`toggle_tracking` is modelled as the ordered list of effects the handler
performs.  The inputs that the source reads from the platform are
parameters: whether `get_chat_member` reported the presser as
administrator or owner, the result of the provider fetch, and the chat
and message id of the card the button lives on.  Only `setEntry`
actions change the tracking store; all other actions are platform
calls, listed so that their order relative to the store assignment is
part of the model. -/

/-- One observable step of a handler. -/
inductive TAction where
  /-- An assignment `tracked_contracts[addr] = e` (the per-field
  assignments of the toggle-on branch happen with no `await` between
  them, hence as one step). -/
  | setEntry (addr : String) (e : Entry)
  /-- `bot.send_message(chat_id=chat, text=text)`. -/
  | sendMessage (chat : Nat) (text : String)
  /-- `bot.delete_message` of the transient notice just sent. -/
  | deleteMessage
  /-- `bot.pin_chat_message(chat_id, message_id)`. -/
  | pinMsg (chat msg : Nat)
  /-- `bot.unpin_chat_message(chat_id, message_id)`; the arguments are
  the raw store fields, which the source passes unchecked. -/
  | unpinMsg (chat : Option Nat) (msg : Option Nat)
  /-- `query.edit_message_reply_markup` with the given track label. -/
  | editMarkup (label : String)
  /-- `asyncio.sleep(seconds)`. -/
  | sleep (seconds : Nat)
  /-- `query.answer()`. -/
  | answerQuery
deriving DecidableEq, Repr

/-- `toggle_tracking` (src/bot.py lines 248-303).
`isAdminOrOwner` is the `member.status in [ADMINISTRATOR, OWNER]` test,
`fetch` the result of `get_dexscreener_token_info` filtered through the
`'pairs'` test (outer) with the `fdv` field of `pairs[0]` inside, and
`chat`/`msg` are `query.message.chat_id` / `query.message.message_id`. -/
def toggle_tracking (isAdminOrOwner : Bool) (fetch : Option (Option Cap))
    (addr : String) (chat msg : Nat) (st : Store) : List TAction :=
  if isAdminOrOwner = false then
    [TAction.answerQuery,
     TAction.sendMessage chat ("You do not have permission to add to the Track List."),
     TAction.sleep 10,
     TAction.deleteMessage]
  else
    let e := st.get addr
    if e.initial_market_cap = none then
      -- toggle-on branch (lines 267-283)
      match fetch with
      | some fdv =>
          let market_cap : Cap := fdv.getD 0    -- float(pairs[0].get('fdv', 0))
          [TAction.answerQuery,
           TAction.setEntry addr ⟨some market_cap, some market_cap, some msg, some chat⟩,
           TAction.pinMsg chat msg,
           TAction.editMarkup ("✅ Track")]
      | none => [TAction.answerQuery]           -- fetch failed: nothing happens
    else
      -- toggle-off branch (lines 284-303): the store is cleared (line 287)
      -- before unpin is awaited (line 288)
      [TAction.answerQuery,
       TAction.setEntry addr defaultEntry,
       TAction.unpinMsg e.chat_id e.pin_message_id,
       TAction.sendMessage chat ("Stopped tracking " ++ addr ++ "."),
       TAction.sleep 5,
       TAction.deleteMessage,
       TAction.editMarkup ("❌ Track")]

/-- Replay the store assignments of a handler script. -/
def runActions : List TAction → Store → Store
  | [], st => st
  | TAction.setEntry a e :: rest, st => runActions rest (st.set a e)
  | _ :: rest, st => runActions rest st

/-- The store-level stop-tracking operation, as `toggle_tracking`
implements it: the dispatch on `initial_market_cap is None`
(src/bot.py line 267) guards the clearing branch (lines 285-287), so on
an untracked contract the stop path is a no-op that yields no pin
reference; on a tracked contract it clears the entry and hands back the
`(chat_id, pin_message_id)` the caller must unpin. -/
def stop_tracking (st : Store) (addr : String) : Option (Option Nat × Option Nat) × Store :=
  let e := st.get addr
  if e.initial_market_cap = none then (none, st)
  else (some (e.chat_id, e.pin_message_id), st.set addr defaultEntry)

/-! ## The poll loop (src/bot.py lines 305-332) -/

/-- An uncaught Python exception inside the poll loop body. -/
inductive CycleError where
  /-- `ZeroDivisionError` from `abs(current - last) / last` with
  `last == 0.0`. -/
  | divByZero
  /-- `TypeError` from arithmetic on `None` (unreachable from states the
  handlers produce, but present in the source's semantics). -/
  | typeErr
deriving DecidableEq, Repr

/-- The alert message of src/bot.py lines 320-324. -/
structure Alert where
  addr : String
  direction : String
  percentage_change : Cap
  chat : Option Nat
deriving DecidableEq, Repr

/-- The body of the `for` loop of `check_tracked_contracts`
(src/bot.py lines 306-332) for one contract.  `fetch` is the provider
oracle for this cycle and `newPin` gives the message id of the freshly
sent replacement card (`send_token_info`'s return value, tested for
truthiness at line 330).  Returns the updated entry and the alerts sent,
or the uncaught exception that aborts the whole loop. -/
def check_one_contract (fetch : String → Option (Option Cap)) (newPin : String → Nat)
    (addr : String) (e : Entry) : Except CycleError (Entry × List Alert) :=
  if e.initial_market_cap = none then Except.ok (e, [])   -- line 307: continue
  else
    match fetch addr with
    | none => Except.ok (e, [])                           -- lines 310-311: no data
    | some fdv =>
        let current : Cap := fdv.getD 0                   -- line 312
        match e.last_alerted_cap with
        | none => Except.error CycleError.typeErr
        | some last_cap =>
            if last_cap = 0 then Except.error CycleError.divByZero   -- line 317 raises
            else if 5/100 ≤ |current - last_cap| / last_cap then     -- line 317
              let direction := if last_cap < current then "up" else "down"
              let pct := (current - last_cap) / last_cap * 100
              let e1 := { e with last_alerted_cap := some current }  -- line 325
              let p := newPin addr                                   -- line 329
              let e2 := if p ≠ 0 then { e1 with pin_message_id := some p } else e1
              Except.ok (e2, [⟨addr, direction, pct, e.chat_id⟩])
            else Except.ok (e, [])                                   -- below threshold
deriving instance DecidableEq for Except

/-- `check_tracked_contracts` (src/bot.py lines 305-332): iterate the
loop body over the table in insertion order.  An uncaught exception
stops the loop; assignments already made persist. -/
def check_tracked_contracts (fetch : String → Option (Option Cap)) (newPin : String → Nat) :
    Store → Store × List Alert × Option CycleError
  | [] => ([], [], none)
  | (a, e) :: rest =>
      match check_one_contract fetch newPin a e with
      | Except.error err => ((a, e) :: rest, [], some err)
      | Except.ok (e2, msgs) =>
          let r := check_tracked_contracts fetch newPin rest
          ((a, e2) :: r.1, msgs ++ r.2.1, r.2.2)

/-! ## Operation sequences over the store -/

/-- One externally triggered operation on the tracking store: a toggle
button press or one full poll cycle. -/
inductive Op where
  | toggle (isAdminOrOwner : Bool) (fetch : Option (Option Cap))
      (addr : String) (chat msg : Nat)
  | pollCycle (fetch : String → Option (Option Cap)) (newPin : String → Nat)

/-- Apply one operation to the store. -/
def applyOp (st : Store) : Op → Store
  | Op.toggle adm f a c m => runActions (toggle_tracking adm f a c m st) st
  | Op.pollCycle f np => (check_tracked_contracts f np st).1

/-- The store after a sequence of operations from process start (the
table begins empty). -/
def runOps (ops : List Op) : Store :=
  ops.foldl applyOp []

/-! ## The all-or-nothing invariant -/

/-- The spec's linked-fields invariant: `initial_market_cap`,
`last_alerted_cap` and the pinned-message reference are `none` together
or non-`none` together. -/
def goodEntry (e : Entry) : Prop :=
  (e.initial_market_cap = none ∧ e.last_alerted_cap = none ∧ e.pin_message_id = none)
    ∨ (e.initial_market_cap ≠ none ∧ e.last_alerted_cap ≠ none ∧ e.pin_message_id ≠ none)

instance (e : Entry) : Decidable (goodEntry e) := by
  unfold goodEntry
  infer_instance

/-- Every entry materialised in the table is good. -/
def InvStore (st : Store) : Prop := ∀ p ∈ st, goodEntry p.2

theorem Store.get_set_self (st : Store) (a : String) (e : Entry) :
    (st.set a e).get a = e := by
  induction st with
  | nil => simp [Store.set, Store.get]
  | cons p rest ih =>
      by_cases h : p.1 = a
      · simp [Store.set, Store.get, h]
      · simp [Store.set, Store.get, h, ih]

theorem goodEntry_default : goodEntry defaultEntry := by
  simp [goodEntry, defaultEntry]

theorem InvStore.get_good {st : Store} (h : InvStore st) (a : String) :
    goodEntry (st.get a) := by
  induction st with
  | nil => simpa [Store.get] using goodEntry_default
  | cons p rest ih =>
      rw [Store.get]
      by_cases hk : p.1 = a
      · simpa [hk] using h p (by simp)
      · simp only [hk, if_false]
        exact ih fun q hq => h q (List.mem_cons_of_mem _ hq)

theorem InvStore.set {st : Store} (h : InvStore st) {e : Entry} (a : String)
    (he : goodEntry e) : InvStore (st.set a e) := by
  induction st with
  | nil => intro q hq; simp [Store.set] at hq; simp [hq, he]
  | cons p rest ih =>
      intro q hq
      rw [Store.set] at hq
      by_cases hk : p.1 = a
      · simp only [hk, if_pos rfl] at hq
        rcases List.mem_cons.1 hq with h1 | h1
        · simp [h1, he]
        · exact h q (List.mem_cons_of_mem _ h1)
      · simp only [hk, if_false] at hq
        rcases List.mem_cons.1 hq with h1 | h1
        · exact h q (h1 ▸ List.mem_cons_self _ _)
        · exact ih (fun r hr => h r (List.mem_cons_of_mem _ hr)) q h1

/-! ## Branch lemmas for the loop body and the toggle handler -/

theorem check_one_untracked (fetch : String → Option (Option Cap)) (newPin : String → Nat)
    (addr : String) {e : Entry} (h : e.initial_market_cap = none) :
    check_one_contract fetch newPin addr e = Except.ok (e, []) := by
  simp [check_one_contract, h]

theorem check_one_fetch_failed (fetch : String → Option (Option Cap)) (newPin : String → Nat)
    {addr : String} {e : Entry} (h : e.initial_market_cap ≠ none)
    (hf : fetch addr = none) :
    check_one_contract fetch newPin addr e = Except.ok (e, []) := by
  simp [check_one_contract, h, hf]

theorem check_one_zero_baseline (fetch : String → Option (Option Cap)) (newPin : String → Nat)
    {addr : String} {e : Entry} {fdv : Option Cap} (h : e.initial_market_cap ≠ none)
    (hf : fetch addr = some fdv) (hl : e.last_alerted_cap = some 0) :
    check_one_contract fetch newPin addr e = Except.error CycleError.divByZero := by
  simp [check_one_contract, h, hf, hl]

theorem check_one_alert (fetch : String → Option (Option Cap)) (newPin : String → Nat)
    {addr : String} {e : Entry} {fdv : Option Cap} {l : Cap}
    (h : e.initial_market_cap ≠ none) (hf : fetch addr = some fdv)
    (hl : e.last_alerted_cap = some l) (hl0 : l ≠ 0)
    (hth : 5/100 ≤ |fdv.getD 0 - l| / l) :
    check_one_contract fetch newPin addr e =
      Except.ok
        ((if newPin addr ≠ 0 then
            { e with last_alerted_cap := some (fdv.getD 0), pin_message_id := some (newPin addr) }
          else { e with last_alerted_cap := some (fdv.getD 0) }),
         [⟨addr, (if l < fdv.getD 0 then "up" else "down"), (fdv.getD 0 - l) / l * 100, e.chat_id⟩]) := by
  simp [check_one_contract, h, hf, hl, hl0, hth]

theorem check_one_below_threshold (fetch : String → Option (Option Cap)) (newPin : String → Nat)
    {addr : String} {e : Entry} {fdv : Option Cap} {l : Cap}
    (h : e.initial_market_cap ≠ none) (hf : fetch addr = some fdv)
    (hl : e.last_alerted_cap = some l) (hl0 : l ≠ 0)
    (hth : |fdv.getD 0 - l| / l < 5/100) :
    check_one_contract fetch newPin addr e = Except.ok (e, []) := by
  simp [check_one_contract, h, hf, hl, hl0, not_le.2 hth]

theorem toggle_on_store {st : Store} {addr : String} (fdv : Option Cap) (chat msg : Nat)
    (h : (st.get addr).initial_market_cap = none) :
    runActions (toggle_tracking true (some fdv) addr chat msg st) st =
      st.set addr ⟨some (fdv.getD 0), some (fdv.getD 0), some msg, some chat⟩ := by
  simp [toggle_tracking, h, runActions]

theorem toggle_on_fetch_failed_store {st : Store} {addr : String} (chat msg : Nat)
    (h : (st.get addr).initial_market_cap = none) :
    runActions (toggle_tracking true none addr chat msg st) st = st := by
  simp [toggle_tracking, h, runActions]

theorem toggle_off_store {st : Store} {addr : String} (fetch : Option (Option Cap))
    (chat msg : Nat) (h : (st.get addr).initial_market_cap ≠ none) :
    runActions (toggle_tracking true fetch addr chat msg st) st = st.set addr defaultEntry := by
  simp [toggle_tracking, h, runActions]

theorem toggle_unauthorized_store (fetch : Option (Option Cap)) (addr : String)
    (chat msg : Nat) (st : Store) :
    runActions (toggle_tracking false fetch addr chat msg st) st = st := by
  simp [toggle_tracking, runActions]

/-! ## Preservation of the invariant -/

theorem check_one_good {fetch : String → Option (Option Cap)} {newPin : String → Nat}
    {addr : String} {e e2 : Entry} {msgs : List Alert} (hg : goodEntry e)
    (h : check_one_contract fetch newPin addr e = Except.ok (e2, msgs)) :
    goodEntry e2 := by
  by_cases h0 : e.initial_market_cap = none
  · rw [check_one_untracked fetch newPin addr h0] at h
    cases h
    exact hg
  · rcases hg with ⟨h1, _, _⟩ | ⟨_, h2, h3⟩
    · exact absurd h1 h0
    · unfold check_one_contract at h
      rw [if_neg h0] at h
      cases hf : fetch addr with
      | none => rw [hf] at h; cases h; exact Or.inr ⟨h0, h2, h3⟩
      | some fdv =>
          rw [hf] at h
          cases hl : e.last_alerted_cap with
          | none => exact absurd hl h2
          | some l =>
              rw [hl] at h
              simp only at h
              by_cases hz : l = 0
              · rw [if_pos hz] at h; cases h
              · rw [if_neg hz] at h
                by_cases hth : 5/100 ≤ |fdv.getD 0 - l| / l
                · rw [if_pos hth] at h
                  by_cases hp : newPin addr ≠ 0
                  · rw [if_pos hp] at h
                    cases h
                    exact Or.inr ⟨h0, by simp, by simp⟩
                  · rw [if_neg hp] at h
                    cases h
                    exact Or.inr ⟨h0, by simp, h3⟩
                · rw [if_neg hth] at h
                  cases h
                  exact Or.inr ⟨h0, h2, h3⟩

theorem check_cycle_inv (fetch : String → Option (Option Cap)) (newPin : String → Nat)
    {st : Store} (h : InvStore st) :
    InvStore (check_tracked_contracts fetch newPin st).1 := by
  induction st with
  | nil => intro q hq; simp [check_tracked_contracts] at hq
  | cons p rest ih =>
      rw [check_tracked_contracts]
      cases hc : check_one_contract fetch newPin p.1 p.2 with
      | error err =>
          intro q hq
          exact h q hq
      | ok r =>
          intro q hq
          simp only at hq
          rcases List.mem_cons.1 hq with h1 | h1
          · have hg : goodEntry r.1 :=
              check_one_good (h p (List.mem_cons_self _ _)) (by rw [hc])
            rw [h1]
            exact hg
          · exact ih (fun w hw => h w (List.mem_cons_of_mem _ hw)) q h1

theorem applyOp_inv {st : Store} (h : InvStore st) (op : Op) :
    InvStore (applyOp st op) := by
  cases op with
  | toggle adm f a c m =>
      cases adm with
      | false => rw [applyOp, toggle_unauthorized_store]; exact h
      | true =>
          by_cases h0 : (st.get a).initial_market_cap = none
          · cases f with
            | none => rw [applyOp, toggle_on_fetch_failed_store _ _ h0]; exact h
            | some fdv =>
                rw [applyOp, toggle_on_store fdv c m h0]
                exact h.set a (Or.inr (by simp))
          · rw [applyOp, toggle_off_store f c m h0]
            exact h.set a goodEntry_default
  | pollCycle f np => exact check_cycle_inv f np h

theorem runOps_inv (ops : List Op) : InvStore (runOps ops) := by
  have key : ∀ (l : List Op) (st : Store), InvStore st → InvStore (l.foldl applyOp st) := by
    intro l
    induction l with
    | nil => intro st h; exact h
    | cons op rest ih => intro st h; exact ih _ (applyOp_inv h op)
  exact key ops [] (by intro q hq; simp at hq)

/-! ## Claim theorems -/

/-- C1: for a tracked contract whose fetch succeeds in a poll cycle, with
baseline `l` and current cap `c`: if `|c - l| / l ≥ 0.05` (inclusive, so
a delta of exactly the threshold triggers) the cycle sends exactly one
alert whose direction is "up" iff `c > l` and whose percentage change is
the signed `(c - l) / l * 100`, and sets `last_alerted_cap` to `c`; if
the delta is below the threshold the entry is unchanged and no message
is sent. -/
theorem poll_threshold_behaviour (fetch : String → Option (Option Cap)) (newPin : String → Nat)
    (addr : String) (e : Entry) (l c : Cap)
    (htr : e.initial_market_cap ≠ none)
    (hl : e.last_alerted_cap = some l) (hl0 : l ≠ 0)
    (hf : fetch addr = some (some c)) :
    (5/100 ≤ |c - l| / l →
      ∃ e2, check_one_contract fetch newPin addr e =
          Except.ok (e2, [⟨addr, (if l < c then "up" else "down"), (c - l) / l * 100, e.chat_id⟩])
        ∧ e2.last_alerted_cap = some c ∧ e2.initial_market_cap = e.initial_market_cap)
    ∧ (|c - l| / l < 5/100 →
      check_one_contract fetch newPin addr e = Except.ok (e, [])) := by
  constructor
  · intro hth
    refine ⟨_, check_one_alert fetch newPin htr hf hl hl0 (by simpa using hth), ?_⟩
    constructor <;> (by_cases hp : newPin addr ≠ 0 <;> simp [hp])
  · intro hth
    exact check_one_below_threshold fetch newPin htr hf hl hl0 (by simpa using hth)

/-- Witness for C1 at the exact threshold boundary: baseline 100000,
current cap 105000, a move of exactly 5%, triggers an "up" alert of 5%
and the baseline becomes 105000. -/
theorem poll_threshold_behaviour_witness :
    ∃ e2, check_one_contract (fun _ => some (some (105000 : Cap))) (fun _ => 9) ("A")
        ⟨some 100000, some 100000, some 5, some 7⟩ =
        Except.ok (e2, [⟨("A"), "up", 5, some 7⟩]) ∧ e2.last_alerted_cap = some 105000 := by
  obtain ⟨e2, heq, hlast, -⟩ :=
    (poll_threshold_behaviour (fun _ => some (some 105000)) (fun _ => 9) ("A")
      ⟨some 100000, some 100000, some 5, some 7⟩ 100000 105000
      (by simp) rfl (by norm_num) rfl).1 (by norm_num)
  refine ⟨e2, ?_, hlast⟩
  rw [heq]
  norm_num

/-- C2 (code bug): a tracked contract whose `last_alerted_cap` is `0.0`
is not skipped — the threshold computation at line 317 raises
`ZeroDivisionError`, which aborts the rest of the cycle.  Here a second
tracked contract with a 99.95% drop, which should alert, is never
processed: the loop stops with the table unchanged and no message. -/
theorem poll_zero_baseline_raises :
    check_tracked_contracts (fun _ => some (some 50)) (fun _ => 3)
        [(("B"), ⟨some 100, some 0, some 11, some 7⟩),
         (("C"), ⟨some 100000, some 100000, some 12, some 7⟩)] =
      ([(("B"), ⟨some 100, some 0, some 11, some 7⟩),
        (("C"), ⟨some 100000, some 100000, some 12, some 7⟩)],
       [], some CycleError.divByZero) := by
  have hB : check_one_contract (fun _ => some (some (50 : Cap))) (fun _ => 3) ("B")
      ⟨some 100, some 0, some 11, some 7⟩ = Except.error CycleError.divByZero :=
    check_one_zero_baseline _ _ (by simp) rfl rfl
  simp [check_tracked_contracts, hB]

/-- C3: over every sequence of store operations from process start, the
three linked fields are all `none` or all non-`none` together; a
successful toggle-on makes `initial_market_cap = last_alerted_cap`, both
non-`none`; a toggle-off clears the entry to the all-`none` default. -/
theorem store_fields_all_or_nothing (ops : List Op) :
    (∀ a, goodEntry ((runOps ops).get a))
    ∧ (∀ (a : String) (fdv : Option Cap) (c m : Nat),
        ((runOps ops).get a).initial_market_cap = none →
        ((applyOp (runOps ops) (Op.toggle true (some fdv) a c m)).get a).initial_market_cap
            = ((applyOp (runOps ops) (Op.toggle true (some fdv) a c m)).get a).last_alerted_cap
          ∧ ((applyOp (runOps ops) (Op.toggle true (some fdv) a c m)).get a).initial_market_cap ≠ none)
    ∧ (∀ (a : String) (f : Option (Option Cap)) (c m : Nat),
        ((runOps ops).get a).initial_market_cap ≠ none →
        (applyOp (runOps ops) (Op.toggle true f a c m)).get a = defaultEntry) := by
  refine ⟨fun a => (runOps_inv ops).get_good a, ?_, ?_⟩
  · intro a fdv c m h
    rw [applyOp, toggle_on_store fdv c m h, Store.get_set_self]
    simp
  · intro a f c m h
    rw [applyOp, toggle_off_store f c m h, Store.get_set_self]

/-- Witness for C3: from the empty table, a toggle-on of contract "A"
leaves it tracked with equal, non-`none` caps. -/
theorem store_fields_all_or_nothing_witness :
    ((runOps []).get ("A")).initial_market_cap = none ∧
    ((applyOp (runOps []) (Op.toggle true (some (some 5)) ("A") 1 2)).get ("A")).initial_market_cap
      ≠ none := by
  have h : ((runOps []).get ("A")).initial_market_cap = none := rfl
  exact ⟨h, ((store_fields_all_or_nothing []).2.1 ("A") (some 5) 1 2 h).2⟩

/-- C4 (code bug): in a cycle where the fetch for tracked contract "B"
fails, "B" is untouched and gets no message — but a later tracked
contract is only processed normally if no contract before it has a zero
baseline.  First conjunct, the failing input: fetch fails for "B", "D"
has baseline `0.0`, and "C" has moved 6%; the cycle dies on "D"'s
`ZeroDivisionError` and "C" never alerts.  Second conjunct: the same
cycle without "D" behaves as the claim says — "B" untouched, "C" alerts
"up" by 6% and its baseline and pin are updated. -/
theorem poll_fetch_failure_cycle :
    (check_tracked_contracts
        (fun a => if a = ("B") then none
                  else if a = ("D") then some (some 5) else some (some 106000))
        (fun _ => 99)
        [(("B"), ⟨some 100, some 100, some 11, some 7⟩),
         (("D"), ⟨some 50, some 0, some 12, some 7⟩),
         (("C"), ⟨some 100000, some 100000, some 13, some 7⟩)] =
      ([(("B"), ⟨some 100, some 100, some 11, some 7⟩),
        (("D"), ⟨some 50, some 0, some 12, some 7⟩),
        (("C"), ⟨some 100000, some 100000, some 13, some 7⟩)],
       [], some CycleError.divByZero))
    ∧ (check_tracked_contracts
        (fun a => if a = ("B") then none
                  else if a = ("D") then some (some 5) else some (some 106000))
        (fun _ => 99)
        [(("B"), ⟨some 100, some 100, some 11, some 7⟩),
         (("C"), ⟨some 100000, some 100000, some 13, some 7⟩)] =
      ([(("B"), ⟨some 100, some 100, some 11, some 7⟩),
        (("C"), ⟨some 100000, some 106000, some 99, some 7⟩)],
       [⟨("C"), "up", 6, some 7⟩], none)) := by
  have hB : check_one_contract
      (fun a => if a = ("B") then none
                else if a = ("D") then some (some 5) else some (some (106000 : Cap)))
      (fun _ => 99) ("B") ⟨some 100, some 100, some 11, some 7⟩ =
      Except.ok (⟨some 100, some 100, some 11, some 7⟩, []) :=
    check_one_fetch_failed _ _ (by simp) rfl
  have hD : check_one_contract
      (fun a => if a = ("B") then none
                else if a = ("D") then some (some 5) else some (some (106000 : Cap)))
      (fun _ => 99) ("D") ⟨some 50, some 0, some 12, some 7⟩ =
      Except.error CycleError.divByZero :=
    check_one_zero_baseline _ _ (by simp) rfl rfl
  have hC : check_one_contract
      (fun a => if a = ("B") then none
                else if a = ("D") then some (some 5) else some (some (106000 : Cap)))
      (fun _ => 99) ("C") ⟨some 100000, some 100000, some 13, some 7⟩ =
      Except.ok (⟨some 100000, some 106000, some 99, some 7⟩,
        [⟨("C"), "up", 6, some 7⟩]) := by
    rw [check_one_alert _ _ (e := ⟨some 100000, some 100000, some 13, some 7⟩)
        (by simp) rfl rfl (by norm_num) (by norm_num)]
    norm_num
  constructor
  · simp [check_tracked_contracts, hB, hD]
  · simp [check_tracked_contracts, hB, hC]

/-- C5: in the toggle-off sequence the store entry is cleared strictly
before the unpin platform call is issued, so even if the unpin fails
(execution stops at that call) the store is already untracked. -/
theorem toggle_off_clears_before_unpin (st : Store) (addr : String)
    (fetch : Option (Option Cap)) (chat msg : Nat)
    (h : (st.get addr).initial_market_cap ≠ none) :
    ∃ k oc om,
      (toggle_tracking true fetch addr chat msg st).get? k = some (TAction.unpinMsg oc om)
      ∧ (runActions ((toggle_tracking true fetch addr chat msg st).take k) st).get addr
          = defaultEntry := by
  refine ⟨2, (st.get addr).chat_id, (st.get addr).pin_message_id, ?_, ?_⟩
  · simp [toggle_tracking, h]
  · simp [toggle_tracking, h, runActions, Store.get_set_self]

/-- Witness for C5 on a one-entry tracked table. -/
theorem toggle_off_clears_before_unpin_witness :
    ∃ k oc om,
      (toggle_tracking true none ("A") 7 9 [(("A"), ⟨some 1, some 1, some 2, some 3⟩)]).get? k
          = some (TAction.unpinMsg oc om)
      ∧ (runActions
            ((toggle_tracking true none ("A") 7 9
              [(("A"), ⟨some 1, some 1, some 2, some 3⟩)]).take k)
            [(("A"), ⟨some 1, some 1, some 2, some 3⟩)]).get ("A") = defaultEntry :=
  toggle_off_clears_before_unpin [(("A"), ⟨some 1, some 1, some 2, some 3⟩)] ("A") none 7 9
    (by simp [Store.get])

/-- C6: invoking the stop-tracking operation on an untracked contract is
total (no crash) and a store no-op reported as a failure (`none`), and a
previous pin reference is returned exactly when the contract was
tracked. -/
theorem stop_tracking_untracked_noop (st : Store) (addr : String) :
    ((st.get addr).initial_market_cap = none → stop_tracking st addr = (none, st))
    ∧ ((stop_tracking st addr).1.isSome ↔ (st.get addr).initial_market_cap ≠ none)
    ∧ ((st.get addr).initial_market_cap ≠ none →
        (stop_tracking st addr).1 = some ((st.get addr).chat_id, (st.get addr).pin_message_id)) := by
  by_cases h : (st.get addr).initial_market_cap = none
  · refine ⟨fun _ => ?_, ?_, fun hc => absurd h hc⟩
    · simp [stop_tracking, h]
    · simp [stop_tracking, h]
  · refine ⟨fun hc => absurd hc h, ?_, fun _ => ?_⟩
    · simp [stop_tracking, h]
    · simp [stop_tracking, h]

/-- Witness for C6: on the empty table every contract is untracked and
stop-tracking is a reported no-op. -/
theorem stop_tracking_untracked_noop_witness :
    stop_tracking [] ("A") = (none, []) :=
  (stop_tracking_untracked_noop [] ("A")).1 rfl

theorem b58index_isSome (c : Char) (l : List Char) : (b58index c l).isSome ↔ c ∈ l := by
  induction l with
  | nil => simp [b58index]
  | cons a rest ih =>
      by_cases h : a = c
      · simp [b58index, h]
      · simp [b58index, h, ih, Ne.symm h]

theorem b58decodeCore_isSome (cs : List Char) :
    ∀ acc, (b58decodeCore acc cs).isSome ↔ ∀ c ∈ cs, c ∈ BASE58_ALPHABET := by
  induction cs with
  | nil => intro acc; simp [b58decodeCore]
  | cons c rest ih =>
      intro acc
      rw [b58decodeCore]
      cases hi : b58index c BASE58_ALPHABET with
      | none =>
          have hc : ¬ c ∈ BASE58_ALPHABET := by
            rw [← b58index_isSome]
            simp [hi]
          simp [hc]
      | some i =>
          have hc : c ∈ BASE58_ALPHABET := by
            rw [← b58index_isSome]
            simp [hi]
          simp [ih, hc]

/-- C7 counterexample: 31 alphabet characters followed by one trailing
space (32 characters, inside the length window).  `base58.b58decode`
rstrips the space and decodes, so the program classifies the string as
a candidate, yet it is not decodable under the base-58 alphabet (space
is not in the alphabet) and it is not a 42-character "0x" string: both
sides of the claimed iff's right-hand side are false while the left is
true. -/
theorem classifier_trailing_space_counterexample :
    is_contract_address ("1111111111111111111111111111111 ") = true
    ∧ ¬ ((∀ c ∈ ("1111111111111111111111111111111 ").data, c ∈ BASE58_ALPHABET)
          ∧ 32 ≤ ("1111111111111111111111111111111 ").length
          ∧ ("1111111111111111111111111111111 ").length ≤ 44)
    ∧ ¬ (("1111111111111111111111111111111 ").length = 42
          ∧ startswith ("1111111111111111111111111111111 ") ("0x") = true) := by
  refine ⟨by decide, by decide, by decide⟩

/-- C7 (amended): the classifier accepts a string iff, after stripping
trailing whitespace the way `base58.b58decode` does, every remaining
character is in the base-58 alphabet and the original length is in
[32, 44] — or the string has exactly 42 characters and starts with the
literal prefix "0x"; "0x" followed by 40 hex characters is a candidate
and "0x" followed by 39 characters is not. -/
theorem classifier_rstrip_characterization :
    (∀ s : String, is_contract_address s = true ↔
        ((∀ c ∈ pyRstrip s.data, c ∈ BASE58_ALPHABET) ∧ 32 ≤ s.length ∧ s.length ≤ 44)
        ∨ (s.length = 42 ∧ startswith s ("0x") = true))
    ∧ is_contract_address ("0x1234567890abcdef1234567890abcdef12345678") = true
    ∧ is_contract_address ("0x123456789abcdef123456789abcdef123456789") = false := by
  refine ⟨fun s => ?_, by decide, by decide⟩
  have hb : is_valid_base58 s = true ↔
      ((∀ c ∈ pyRstrip s.data, c ∈ BASE58_ALPHABET) ∧ 32 ≤ s.length ∧ s.length ≤ 44) := by
    unfold is_valid_base58
    by_cases h : 32 ≤ s.length ∧ s.length < 45
    · rw [if_pos h]
      unfold b58decode
      rw [show ((b58decodeCore 0 (pyRstrip s.data)).isSome = true)
            ↔ (b58decodeCore 0 (pyRstrip s.data)).isSome from Iff.rfl]
      rw [b58decodeCore_isSome (pyRstrip s.data) 0]
      constructor
      · intro hall
        exact ⟨hall, h.1, by omega⟩
      · intro hall
        exact hall.1
    · rw [if_neg h]
      constructor
      · intro hf
        exact absurd hf (by simp)
      · intro hall
        exact absurd (And.intro hall.2.1 (by omega)) h
  have he : is_ethereum_address s = true ↔ (s.length = 42 ∧ startswith s ("0x") = true) := by
    unfold is_ethereum_address
    simp
  rw [is_contract_address, Bool.or_eq_true, hb, he]

/-! Evaluation lemmas for the two-decimal formatter. -/

theorem roundHalfEven_intCast (n : ℤ) : roundHalfEven (n : ℚ) = n := by
  unfold roundHalfEven
  rw [Int.floor_intCast]
  norm_num

theorem fmt2Nonneg_eval (q : ℚ) (m : ℕ) (h : q * 100 = (m : ℚ)) :
    fmt2Nonneg q =
      toString (m / 100) ++ "." ++ (if m % 100 < 10 then "0" else "") ++ toString (m % 100) := by
  unfold fmt2Nonneg
  rw [h, show ((m : ℚ)) = (((m : ℤ)) : ℚ) by push_cast; ring, roundHalfEven_intCast]
  simp

theorem fmt2_eval (q : ℚ) (m : ℕ) (h : q * 100 = (m : ℚ)) :
    fmt2 q =
      toString (m / 100) ++ "." ++ (if m % 100 < 10 then "0" else "") ++ toString (m % 100) := by
  rw [fmt2, if_neg (by nlinarith [h, Nat.cast_nonneg (α := ℚ) m]), fmt2Nonneg_eval q m h]

/-- C8: monetary magnitudes are abbreviated with two decimals at the
billion / million / thousand boundaries (suffixes "B", "M", "K";
1,500,000 renders as "1.50M"); buy/sell counts under 1,000 render as
plain integers; percentage changes carry a green up glyph when
positive, a red down glyph when negative, no glyph when zero, always
with two decimal places. -/
theorem formatter_spec :
    (∀ q : Cap, 1000000000 ≤ q → format_number q false = fmt2 (q / 1000000000) ++ "B")
    ∧ (∀ q : Cap, 1000000 ≤ q → q < 1000000000 → format_number q false = fmt2 (q / 1000000) ++ "M")
    ∧ (∀ q : Cap, 1000 ≤ q → q < 1000000 → format_number q false = fmt2 (q / 1000) ++ "K")
    ∧ format_number 1500000 false = ("1.50M")
    ∧ (∀ n : ℕ, n < 1000 → format_number (n : Cap) true = toString n)
    ∧ (∀ q : Cap, 0 < q → format_price_change q = "🟢" ++ fmt2 q ++ "%")
    ∧ (∀ q : Cap, q < 0 → format_price_change q = "🔴" ++ fmt2 q ++ "%")
    ∧ format_price_change 0 = ("0.00%") := by
  refine ⟨?_, ?_, ?_, ?_, ?_, ?_, ?_, ?_⟩
  · intro q hq
    rw [format_number, if_neg (by simp), if_pos hq]
  · intro q h1 h2
    rw [format_number, if_neg (by simp), if_neg (by exact not_le.2 h2), if_pos h1]
  · intro q h1 h2
    rw [format_number, if_neg (by simp), if_neg (by nlinarith), if_neg (by exact not_le.2 h2),
      if_pos h1]
  · rw [format_number, if_neg (by simp), if_neg (by norm_num), if_pos (by norm_num),
      fmt2_eval (1500000 / 1000000) 150 (by norm_num)]
    decide
  · intro n hn
    rw [format_number, if_pos ⟨rfl, by exact_mod_cast hn⟩, pyInt,
      if_pos (by positivity), Int.floor_natCast]
    rfl
  · intro q hq
    rw [format_price_change, if_pos hq]
  · intro q hq
    rw [format_price_change, if_neg (by exact asymm hq), if_pos hq]
  · rw [format_price_change, if_neg (by norm_num), if_neg (by norm_num),
      fmt2_eval 0 0 (by norm_num)]
    decide

/-- Witness for C8: the million branch at 1,500,000 and a positive
percentage change of exactly 6%. -/
theorem formatter_spec_witness :
    ((1000000 : Cap) ≤ 1500000 ∧ (1500000 : Cap) < 1000000000
      ∧ format_number 1500000 false = fmt2 (1500000 / 1000000) ++ "M")
    ∧ ((0 : Cap) < 6 ∧ format_price_change 6 = "🟢" ++ fmt2 6 ++ "%") :=
  ⟨⟨by norm_num, by norm_num, formatter_spec.2.1 1500000 (by norm_num) (by norm_num)⟩,
   ⟨by norm_num, formatter_spec.2.2.2.2.2.1 6 (by norm_num)⟩⟩

/-- C9: a toggle press by an actor who is neither administrator nor
owner performs exactly the denial script — answer the callback, post
the denial notice, wait the fixed 10 seconds, delete the notice — and
leaves the tracking store exactly as it was. -/
theorem toggle_unauthorized_transient (fetch : Option (Option Cap)) (addr : String)
    (chat msg : Nat) (st : Store) :
    toggle_tracking false fetch addr chat msg st =
      [TAction.answerQuery,
       TAction.sendMessage chat ("You do not have permission to add to the Track List."),
       TAction.sleep 10,
       TAction.deleteMessage]
    ∧ runActions (toggle_tracking false fetch addr chat msg st) st = st :=
  ⟨rfl, toggle_unauthorized_store fetch addr chat msg st⟩

/-- Witness for C9 on a concrete tracked table: the entry survives the
unauthorized press untouched. -/
theorem toggle_unauthorized_transient_witness :
    runActions
        (toggle_tracking false (some (some 5)) ("A") 7 9
          [(("A"), ⟨some 1, some 1, some 2, some 3⟩)])
        [(("A"), ⟨some 1, some 1, some 2, some 3⟩)]
      = [(("A"), ⟨some 1, some 1, some 2, some 3⟩)] :=
  (toggle_unauthorized_transient (some (some 5)) ("A") 7 9
    [(("A"), ⟨some 1, some 1, some 2, some 3⟩)]).2

/-- C10: when the snapshot fetched during toggle-on has no `fdv` field,
toggle-on still succeeds: the contract becomes tracked with
`initial_market_cap = last_alerted_cap = 0.0`, and any subsequent poll
cycle that fetches data for it divides by that zero baseline (raising
`ZeroDivisionError`). -/
theorem toggle_on_missing_fdv (st : Store) (addr : String) (chat msg : Nat)
    (h : (st.get addr).initial_market_cap = none) :
    ((runActions (toggle_tracking true (some none) addr chat msg st) st).get addr
        = ⟨some 0, some 0, some msg, some chat⟩)
    ∧ ∀ (fetch : String → Option (Option Cap)) (newPin : String → Nat) (fdv : Option Cap),
        fetch addr = some fdv →
        check_one_contract fetch newPin addr
            ((runActions (toggle_tracking true (some none) addr chat msg st) st).get addr)
          = Except.error CycleError.divByZero := by
  have hs : runActions (toggle_tracking true (some none) addr chat msg st) st =
      st.set addr ⟨some 0, some 0, some msg, some chat⟩ := by
    rw [toggle_on_store none chat msg h]
    rfl
  refine ⟨by rw [hs, Store.get_set_self], ?_⟩
  intro fetch newPin fdv hf
  rw [hs, Store.get_set_self]
  exact check_one_zero_baseline fetch newPin (by simp) hf rfl

/-- Witness for C10: toggling on contract "A" from the empty table with
an fdv-less snapshot tracks it at a 0.0 baseline, and the next cycle's
fetch hits the zero division. -/
theorem toggle_on_missing_fdv_witness :
    ((runActions (toggle_tracking true (some none) ("A") 7 9 []) []).get ("A")
        = ⟨some 0, some 0, some 9, some 7⟩)
    ∧ check_one_contract (fun _ => some (some 42)) (fun _ => 3) ("A")
        ((runActions (toggle_tracking true (some none) ("A") 7 9 []) []).get ("A"))
      = Except.error CycleError.divByZero := by
  obtain ⟨h1, h2⟩ := toggle_on_missing_fdv [] ("A") 7 9 rfl
  exact ⟨h1, h2 (fun _ => some (some 42)) (fun _ => 3) (some 42) rfl⟩

end NasusBot
